import Mathlib

/-!
Verification of the wide-event middleware in `src/middleware/wide_event.py`
(`WideEventMiddleware`).  The per-request event is a Python dict with string
keys; we embed it as an association list with Python dict semantics:
lookup returns the binding of a key (keys are unique in every dict the
middleware builds), `event[key] = value` overwrites in place or appends,
and `event.update(data)` writes the pairs of `data` in order.
-/

namespace WideEvent

/-- Values stored in the event dict: JSON-ish scalars, `None`,
a mapping of strings (used to express nested-mapping expectations), and
the error object the middleware builds on the exception path
(keys `type`, `message`, `code`, `retriable`; `code` is `None` when the
exception has no such attribute). -/
inductive Value where
  | vNull
  | vBool (b : Bool)
  | vInt (n : Int)
  | vNum (q : ℚ)
  | vStr (s : String)
  | vStrMap (fields : List (String × String))
  | vErrObj (etype emessage : String) (code : Option String) (retriable : Bool)
  deriving DecidableEq

/-- A Python dict with string keys, as an insertion-ordered association list. -/
abbrev EventDict := List (String × Value)

/-- Python dict read `event.get(key)` / `event[key]`: the binding of `key`. -/
def getKey : EventDict → String → Option Value
  | [], _ => none
  | p :: t, k => if p.1 = k then some p.2 else getKey t k

/-- Python dict write `event[key] = value`: overwrite the existing binding in
place, or append a new binding at the end. -/
def setKey : EventDict → String → Value → EventDict
  | [], k, v => [(k, v)]
  | p :: t, k, v => if p.1 = k then (k, v) :: t else p :: setKey t k v

/-- Source `WideEventMiddleware._add_event_data(event, key, value)`:
the body is `event[key] = value`. -/
def addEventData (e : EventDict) (k : String) (v : Value) : EventDict :=
  setKey e k v

/-- Source `WideEventMiddleware._add_event_data_batch(event, data)`:
the body is `event.update(data)`, which writes each pair of `data` in
order into `event`. -/
def addEventDataBatch (e : EventDict) (data : List (String × Value)) : EventDict :=
  data.foldl (fun acc p => setKey acc p.1 p.2) e

/-- First-some choice on options, used to phrase last-write-wins lookups. -/
def orOpt : Option Value → Option Value → Option Value
  | some v, _ => some v
  | none, b => b

/-- The value key `k` receives from a batch `d` when the pairs of `d` are
written in order: the last pair of `d` whose key is `k` wins. -/
def lookupLast : List (String × Value) → String → Option Value
  | [], _ => none
  | p :: t, k => orOpt (lookupLast t k) (if p.1 = k then some p.2 else none)

theorem orOpt_assoc (a b c : Option Value) :
    orOpt (orOpt a b) c = orOpt a (orOpt b c) := by
  cases a <;> rfl

theorem orOpt_none_left (a : Option Value) : orOpt none a = a := rfl

theorem orOpt_if (c : Prop) [Decidable c] (x : Value) (y : Option Value) :
    orOpt (if c then some x else none) y = if c then some x else y := by
  by_cases h : c <;> simp [h, orOpt]

theorem getKey_setKey (e : EventDict) (k k' : String) (v : Value) :
    getKey (setKey e k' v) k = if k' = k then some v else getKey e k := by
  induction e with
  | nil => simp [setKey, getKey]
  | cons p t ih =>
    by_cases h : p.1 = k'
    · by_cases hk : k' = k
      · simp [setKey, h, getKey, hk]
      · have hpk : ¬ p.1 = k := by rw [h]; exact hk
        simp [setKey, h, getKey, hk, hpk]
    · by_cases hpk : p.1 = k
      · have hk : ¬ k' = k := fun hh => h (hpk.trans hh.symm)
        have hk2 : ¬ k = k' := fun hh => hk hh.symm
        simp [setKey, h, getKey, hpk, hk, hk2]
      · simp [setKey, h, getKey, hpk, ih]

theorem getKey_setKey_self (e : EventDict) (k : String) (v : Value) :
    getKey (setKey e k v) k = some v := by
  rw [getKey_setKey, if_pos rfl]

theorem getKey_setKey_ne (e : EventDict) {k k' : String} (v : Value) (h : k' ≠ k) :
    getKey (setKey e k' v) k = getKey e k := by
  rw [getKey_setKey, if_neg h]

theorem getKey_addEventDataBatch (d : List (String × Value)) (e : EventDict) (k : String) :
    getKey (addEventDataBatch e d) k = orOpt (lookupLast d k) (getKey e k) := by
  induction d generalizing e with
  | nil => rfl
  | cons p t ih =>
    show getKey (addEventDataBatch (setKey e p.1 p.2) t) k = _
    rw [ih, getKey_setKey]
    show _ = orOpt (orOpt (lookupLast t k) (if p.1 = k then some p.2 else none)) (getKey e k)
    rw [orOpt_assoc, orOpt_if]

/-- One call made by handler code through the Context Accessor: either the
single-key helper `_add_event_data` (spec name `addField`) or the batch
helper `_add_event_data_batch` (spec name `addFields`). -/
inductive WriteOp where
  | single (k : String) (v : Value)
  | batch (d : List (String × Value))

/-- Apply one accessor call to the event dict, via the source helpers. -/
def applyWrite (e : EventDict) : WriteOp → EventDict
  | WriteOp.single k v => addEventData e k v
  | WriteOp.batch d => addEventDataBatch e d

/-- Apply a sequence of accessor calls in call order. -/
def applyWrites (e : EventDict) (ops : List WriteOp) : EventDict :=
  ops.foldl applyWrite e

/-- The value one accessor call assigns to key `k`, if any. -/
def opLookup (k : String) : WriteOp → Option Value
  | WriteOp.single k' v => if k' = k then some v else none
  | WriteOp.batch d => lookupLast d k

/-- Modelled from the spec wording: the left-fold of the successive merges
with last-write-wins on duplicate keys — the value key `k` holds after a
call sequence is the value of the last call that wrote `k`, if any. -/
def specLastWrite (k : String) : List WriteOp → Option Value
  | [] => none
  | op :: rest => orOpt (specLastWrite k rest) (opLookup k op)

theorem getKey_applyWrite (e : EventDict) (op : WriteOp) (k : String) :
    getKey (applyWrite e op) k = orOpt (opLookup k op) (getKey e k) := by
  cases op with
  | single k' v =>
    show getKey (setKey e k' v) k = orOpt (if k' = k then some v else none) (getKey e k)
    rw [getKey_setKey, orOpt_if]
  | batch d => exact getKey_addEventDataBatch d e k

theorem getKey_applyWrites (ops : List WriteOp) (e : EventDict) (k : String) :
    getKey (applyWrites e ops) k = orOpt (specLastWrite k ops) (getKey e k) := by
  induction ops generalizing e with
  | nil => rfl
  | cons op rest ih =>
    show getKey (applyWrites (applyWrite e op) rest) k = _
    rw [ih, getKey_applyWrite]
    show _ = orOpt (orOpt (specLastWrite k rest) (opLookup k op)) (getKey e k)
    rw [orOpt_assoc]

/-- An inbound HTTP request, as the middleware reads it: its headers (the
Starlette header lookup is case-insensitive; the model stores the canonical
lower-case names), its method and its URL path. -/
structure Request where
  headers : List (String × String)
  method : String
  path : String

/-- Python `request.headers.get(key)`. -/
def headerGet : List (String × String) → String → Option String
  | [], _ => none
  | p :: t, k => if p.1 = k then some p.2 else headerGet t k

/-- Source `WideEventMiddleware._get_env(key)`: the body is
`os.getenv(key)`, a read of the process environment at call time. -/
def getEnv (env : String → Option String) (key : String) : Option String :=
  env key

/-- A present environment or header value becomes a string in the event
dict; an absent one becomes `None`. -/
def optStr : Option String → Value
  | some s => Value.vStr s
  | none => Value.vNull

/-- A raised Python exception, modelled through the attributes involved: the
class name, `str(error)`, and the optional attributes the middleware reads
with `getattr` (`code`, `retriable`).  Python exceptions may carry further
attributes; `status` models one such attribute, which `dispatch` never
consults. -/
structure PyError where
  className : String
  message : String
  code : Option String
  retriable : Option Bool
  status : Option Int
  deriving DecidableEq

/-- The response returned by the downstream chain, exposing its status. -/
structure Response where
  status_code : Int
  deriving DecidableEq

/-- What `await call_next(request)` does: the handler performs a sequence of
calls on the accessor bound into `request.state` (only
`add_event_data_batch` is bound there), then either returns a response or
raises an exception. -/
inductive HandlerResult where
  | ret (r : Response)
  | exn (e : PyError)

structure Handler where
  calls : List (List (String × Value))
  result : HandlerResult

/-- The accessor attributes `dispatch` stores on `request.state`.  Each, when
bound, maps the call argument and the current event dict to the new event
dict. -/
structure RequestState where
  add_event_data : Option (String → Value → EventDict → EventDict)
  add_event_data_batch : Option (List (String × Value) → EventDict → EventDict)

/-- Lines 57-60 of the source: only the batch lambda is assigned;
the assignments of `wide_event` and `add_event_data` are commented out. -/
def boundState : RequestState :=
  { add_event_data := none,
    add_event_data_batch := some fun data e => addEventDataBatch e data }

/-- Lines 46-55 of the source: the event dict literal built at request
start.  `env` is the process environment at dispatch time, `nowIso` is
`datetime.now().isoformat()`. -/
def initialEvent (env : String → Option String) (req : Request)
    (nowIso : String) : EventDict :=
  [("request_id", optStr (headerGet req.headers "x-request-id")),
   ("timestamp", Value.vStr (nowIso ++ "Z")),
   ("method", Value.vStr req.method),
   ("path", Value.vStr req.path),
   ("service", optStr (getEnv env "SERVICE_NAME")),
   ("version", optStr (getEnv env "SERVICE_VERSION")),
   ("deployment_id", optStr (getEnv env "DEPLOYMENT_ID")),
   ("region", optStr (getEnv env "REGION"))]

/-- The effect of the handler calls on the event dict: each call runs the
bound lambda, whose body is `self._add_event_data_batch(event, data)`. -/
def runHandlerCalls (e : EventDict) (calls : List (List (String × Value))) : EventDict :=
  calls.foldl (fun acc d => addEventDataBatch acc d) e

/-- Lines 63-65 of the source (the `try` branch): after a normal return the
wrapper writes `status_code` from the response and `outcome = "success"`;
the `finally` block then writes `duration_ms`. -/
def finalizeSuccess (e : EventDict) (r : Response) (dur : ℚ) : EventDict :=
  setKey (setKey (setKey e "status_code" (Value.vInt r.status_code))
    "outcome" (Value.vStr "success")) "duration_ms" (Value.vNum dur)

/-- Lines 68-77 of the source (the `except` branch): on a raised exception
the wrapper writes `status_code = 500`, `outcome = "error"` and the error
dict built from the exception attributes; the `finally` block then writes
`duration_ms`. -/
def finalizeError (e : EventDict) (err : PyError) (dur : ℚ) : EventDict :=
  setKey (setKey (setKey (setKey e "status_code" (Value.vInt 500))
      "outcome" (Value.vStr "error"))
    "error" (Value.vErrObj err.className err.message err.code (err.retriable.getD false)))
    "duration_ms" (Value.vNum dur)

/-- The observable result of one `dispatch` call: the `request.state`
bindings, the records passed to `logger.info` (each emission snapshots the
dict as formatted at that moment), the event dict object as it stands when
`dispatch` finishes, and what `dispatch` returns or re-raises. -/
structure DispatchResult where
  state : RequestState
  emitted : List EventDict
  event : EventDict
  outcome : Except PyError Response

/-- Source `WideEventMiddleware.dispatch` (lines 42-83).  `tStart` and
`tEnd` are the two `time.time()` wall-clock readings (line 43 and line 80);
under a system clock adjustment mid-request `tEnd` may be smaller than
`tStart`.  The `finally` block computes `duration_ms` and makes the single
`logger.info(event)` call on both exit paths; on the exception path the
exception object is re-raised unchanged. -/
def dispatch (env : String → Option String) (req : Request) (h : Handler)
    (tStart tEnd : ℚ) (nowIso : String) : DispatchResult :=
  let e1 := runHandlerCalls (initialEvent env req nowIso) h.calls
  let dur := (tEnd - tStart) * 1000
  match h.result with
  | HandlerResult.ret r =>
    { state := boundState
      emitted := [finalizeSuccess e1 r dur]
      event := finalizeSuccess e1 r dur
      outcome := Except.ok r }
  | HandlerResult.exn err =>
    { state := boundState
      emitted := [finalizeError e1 err dur]
      event := finalizeError e1 err dur
      outcome := Except.error err }

/-- Calling the accessor kept from `request.state` after `dispatch` has
finished: the bound lambda runs `self._add_event_data_batch(event, data)`
on the dict it closed over; its body contains no `logger` call and no
finalization guard. -/
def postFinalizeCall (r : DispatchResult) (data : List (String × Value)) : DispatchResult :=
  match r.state.add_event_data_batch with
  | some f => { r with event := f data r.event }
  | none => r

theorem dispatch_ret_event (env : String → Option String) (req : Request)
    (calls : List (List (String × Value))) (r : Response) (tStart tEnd : ℚ) (nowIso : String) :
    (dispatch env req { calls := calls, result := HandlerResult.ret r } tStart tEnd nowIso).event
      = finalizeSuccess (runHandlerCalls (initialEvent env req nowIso) calls) r
          ((tEnd - tStart) * 1000) := rfl

theorem dispatch_exn_event (env : String → Option String) (req : Request)
    (calls : List (List (String × Value))) (err : PyError) (tStart tEnd : ℚ) (nowIso : String) :
    (dispatch env req { calls := calls, result := HandlerResult.exn err } tStart tEnd nowIso).event
      = finalizeError (runHandlerCalls (initialEvent env req nowIso) calls) err
          ((tEnd - tStart) * 1000) := rfl

theorem lookupLast_eq_none (d : List (String × Value)) (k : String)
    (h : ∀ p ∈ d, p.1 ≠ k) : lookupLast d k = none := by
  induction d with
  | nil => rfl
  | cons p t ih =>
    show orOpt (lookupLast t k) (if p.1 = k then some p.2 else none) = none
    rw [ih (fun q hq => h q (List.mem_cons_of_mem p hq)),
      if_neg (h p (List.mem_cons_self p t))]
    rfl

theorem getKey_runHandlerCalls_not_written (calls : List (List (String × Value)))
    (e : EventDict) (k : String) (h : ∀ d ∈ calls, ∀ p ∈ d, p.1 ≠ k) :
    getKey (runHandlerCalls e calls) k = getKey e k := by
  induction calls generalizing e with
  | nil => rfl
  | cons d t ih =>
    show getKey (runHandlerCalls (addEventDataBatch e d) t) k = getKey e k
    rw [ih (addEventDataBatch e d) (fun d2 hd2 => h d2 (List.mem_cons_of_mem d hd2)),
      getKey_addEventDataBatch,
      lookupLast_eq_none d k (h d (List.mem_cons_self d t))]
    rfl

/-- If key `k` is none of the finalization keys and no handler call writes
it, the finished event dict still holds the binding the wrapper created at
request start. -/
theorem getKey_dispatch_event_preserved (env : String → Option String) (req : Request)
    (calls : List (List (String × Value))) (res : HandlerResult)
    (tStart tEnd : ℚ) (nowIso : String) (k : String)
    (h1 : k ≠ "status_code") (h2 : k ≠ "outcome") (h3 : k ≠ "duration_ms") (h4 : k ≠ "error")
    (hc : ∀ d ∈ calls, ∀ p ∈ d, p.1 ≠ k) :
    getKey (dispatch env req { calls := calls, result := res } tStart tEnd nowIso).event k
      = getKey (initialEvent env req nowIso) k := by
  cases res with
  | ret r =>
    rw [dispatch_ret_event]
    unfold finalizeSuccess
    rw [getKey_setKey_ne _ _ (Ne.symm h3), getKey_setKey_ne _ _ (Ne.symm h2),
      getKey_setKey_ne _ _ (Ne.symm h1),
      getKey_runHandlerCalls_not_written calls _ k hc]
  | exn err =>
    rw [dispatch_exn_event]
    unfold finalizeError
    rw [getKey_setKey_ne _ _ (Ne.symm h3), getKey_setKey_ne _ _ (Ne.symm h4),
      getKey_setKey_ne _ _ (Ne.symm h2), getKey_setKey_ne _ _ (Ne.symm h1),
      getKey_runHandlerCalls_not_written calls _ k hc]

/-- The key names the wrapper itself assigns at record creation: the
request metadata and the four process identity fields. -/
def metaKeys : List String :=
  ["method", "path", "request_id", "service", "version", "deployment_id", "region"]

/-- Handler call sequences that never use a wrapper-owned key name. -/
def callsAvoidMeta (calls : List (List (String × Value))) : Prop :=
  ∀ d ∈ calls, ∀ p ∈ d, p.1 ∉ metaKeys

instance (calls : List (List (String × Value))) : Decidable (callsAvoidMeta calls) := by
  unfold callsAvoidMeta
  infer_instance

theorem callsAvoidMeta_key (calls : List (List (String × Value)))
    (hc : callsAvoidMeta calls) (k : String) (hk : k ∈ metaKeys) :
    ∀ d ∈ calls, ∀ p ∈ d, p.1 ≠ k :=
  fun d hd p hp he => hc d hd p hp (he ▸ hk)

theorem getKey_initialEvent_request_id (env : String → Option String) (req : Request)
    (nowIso : String) :
    getKey (initialEvent env req nowIso) "request_id"
      = some (optStr (headerGet req.headers "x-request-id")) := rfl

theorem getKey_initialEvent_method (env : String → Option String) (req : Request)
    (nowIso : String) :
    getKey (initialEvent env req nowIso) "method" = some (Value.vStr req.method) := rfl

theorem getKey_initialEvent_path (env : String → Option String) (req : Request)
    (nowIso : String) :
    getKey (initialEvent env req nowIso) "path" = some (Value.vStr req.path) := rfl

theorem getKey_initialEvent_service (env : String → Option String) (req : Request)
    (nowIso : String) :
    getKey (initialEvent env req nowIso) "service" = some (optStr (env "SERVICE_NAME")) := rfl

theorem getKey_initialEvent_version (env : String → Option String) (req : Request)
    (nowIso : String) :
    getKey (initialEvent env req nowIso) "version" = some (optStr (env "SERVICE_VERSION")) := rfl

theorem getKey_initialEvent_deployment_id (env : String → Option String) (req : Request)
    (nowIso : String) :
    getKey (initialEvent env req nowIso) "deployment_id" = some (optStr (env "DEPLOYMENT_ID")) := rfl

theorem getKey_initialEvent_region (env : String → Option String) (req : Request)
    (nowIso : String) :
    getKey (initialEvent env req nowIso) "region" = some (optStr (env "REGION")) := rfl

/-- A minimal concrete request used by the concrete scenarios below. -/
def reqHealth : Request :=
  { headers := [("x-request-id", "abc-123")], method := "GET", path := "/health" }

/-- A process environment with none of the four identity variables set. -/
def envEmpty : String → Option String := fun _ => none

/-- A plain 200 response from the downstream chain. -/
def respOk : Response := { status_code := 200 }

/-- A handler that contributes nothing and returns 200. -/
def handlerNoop : Handler := { calls := [], result := HandlerResult.ret respOk }

/-- Claim C1: for every request processed by dispatch — whatever the handler
contributes and whether it returns normally or raises — exactly one event
record is handed to the sink: the emission list is the one-element list
holding the finalized event, never zero entries and never more than one. -/
theorem C1_exactly_one_emission (env : String → Option String) (req : Request)
    (h : Handler) (tStart tEnd : ℚ) (nowIso : String) :
    (dispatch env req h tStart tEnd nowIso).emitted
      = [(dispatch env req h tStart tEnd nowIso).event]
    ∧ (dispatch env req h tStart tEnd nowIso).emitted.length = 1 := by
  cases h with
  | mk calls result => cases result <;> exact ⟨rfl, rfl⟩

/-- A raised exception that carries an explicit `status` attribute of 404
(which the middleware never reads). -/
def errWithStatus : PyError :=
  { className := "NotFoundError", message := "missing", code := none,
    retriable := none, status := some 404 }

/-- Claim C2 counterexample: the claim says that when the raised error
explicitly carries a different status, that status is used for
`status_code`; at this input the error carries status 404 yet the record is
finalized with `status_code = 500` — the except branch assigns 500
unconditionally and never inspects a status attribute. -/
theorem C2_status_counterexample :
    errWithStatus.status = some 404
    ∧ getKey (dispatch envEmpty reqHealth
        { calls := [], result := HandlerResult.exn errWithStatus } 0 1 "t").event
        "status_code" = some (Value.vInt 500)
    ∧ Value.vInt 500 ≠ Value.vInt 404 :=
  ⟨rfl, rfl, by decide⟩

/-- Claim C2 (amended): if the downstream chain raises, the record is
finalized with `outcome = "error"` and `status_code = 500` unconditionally
(a status carried by the error is ignored), the error block holds the
class name, the message, the `code` attribute (`None` when absent) and
`retriable` defaulting to false when absent, and the same exception object
is re-raised to the caller while the finalized record is emitted. -/
theorem C2_error_path (env : String → Option String) (req : Request)
    (calls : List (List (String × Value))) (err : PyError)
    (tStart tEnd : ℚ) (nowIso : String) :
    getKey (dispatch env req { calls := calls, result := HandlerResult.exn err }
        tStart tEnd nowIso).event "status_code" = some (Value.vInt 500)
    ∧ getKey (dispatch env req { calls := calls, result := HandlerResult.exn err }
        tStart tEnd nowIso).event "outcome" = some (Value.vStr "error")
    ∧ getKey (dispatch env req { calls := calls, result := HandlerResult.exn err }
        tStart tEnd nowIso).event "error"
        = some (Value.vErrObj err.className err.message err.code (err.retriable.getD false))
    ∧ (dispatch env req { calls := calls, result := HandlerResult.exn err }
        tStart tEnd nowIso).outcome = Except.error err
    ∧ (dispatch env req { calls := calls, result := HandlerResult.exn err }
        tStart tEnd nowIso).emitted
        = [(dispatch env req { calls := calls, result := HandlerResult.exn err }
            tStart tEnd nowIso).event] := by
  refine ⟨?_, ?_, ?_, rfl, rfl⟩
  · rw [dispatch_exn_event]
    unfold finalizeError
    rw [getKey_setKey_ne _ _ (by decide : ("duration_ms" : String) ≠ "status_code"),
      getKey_setKey_ne _ _ (by decide : ("error" : String) ≠ "status_code"),
      getKey_setKey_ne _ _ (by decide : ("outcome" : String) ≠ "status_code"),
      getKey_setKey_self]
  · rw [dispatch_exn_event]
    unfold finalizeError
    rw [getKey_setKey_ne _ _ (by decide : ("duration_ms" : String) ≠ "outcome"),
      getKey_setKey_ne _ _ (by decide : ("error" : String) ≠ "outcome"),
      getKey_setKey_self]
  · rw [dispatch_exn_event]
    unfold finalizeError
    rw [getKey_setKey_ne _ _ (by decide : ("duration_ms" : String) ≠ "error"),
      getKey_setKey_self]

/-- Claim C3: for every sequence of accessor calls, every key of the final
event holds the value given by the left-fold of the successive merges with
last-write-wins on duplicate keys (falling back to the base record when no
call wrote the key); merging an empty mapping is a no-op; and the concrete
sequence addField x 1 then addField x 2 leaves x bound to 2. -/
theorem C3_merge_fold :
    (∀ (e : EventDict) (ops : List WriteOp) (k : String),
        getKey (applyWrites e ops) k = orOpt (specLastWrite k ops) (getKey e k))
    ∧ (∀ e : EventDict, addEventDataBatch e [] = e)
    ∧ getKey (applyWrites []
        [WriteOp.single "x" (Value.vInt 1), WriteOp.single "x" (Value.vInt 2)]) "x"
        = some (Value.vInt 2) :=
  ⟨fun e ops k => getKey_applyWrites ops e k, fun _ => rfl, rfl⟩

/-- The handler of the health scenario: one `addFields` call contributing
endpoint and result, then a 200 return. -/
def handlerHealth : Handler :=
  { calls := [[("endpoint", Value.vStr "health"), ("result", Value.vStr "ok")]],
    result := HandlerResult.ret respOk }

/-- The record emitted in the health scenario. -/
def recHealth : EventDict :=
  (dispatch envEmpty reqHealth handlerHealth 0 1 "t").event

/-- Claim C4 counterexample: in the scenario of the claim (header
x-request-id abc-123, one addFields call, 200 return) the emitted record
has no `business_context` key at all — `event.update(data)` merges handler
fields into the top level of the record — so the record does not hold the
claimed nested mapping under that key. -/
theorem C4_business_context_counterexample :
    getKey recHealth "business_context" = none
    ∧ (none : Option Value)
        ≠ some (Value.vStrMap [("endpoint", "health"), ("result", "ok")]) :=
  ⟨rfl, by decide⟩

/-- Claim C4 (amended): in the health scenario the emitted record has
request_id abc-123, outcome success and status_code 200, and the handler
contributions appear as top-level keys endpoint and result; no nested
`business_context` mapping exists. -/
theorem C4_health_scenario :
    getKey recHealth "request_id" = some (Value.vStr "abc-123")
    ∧ getKey recHealth "outcome" = some (Value.vStr "success")
    ∧ getKey recHealth "status_code" = some (Value.vInt 200)
    ∧ getKey recHealth "endpoint" = some (Value.vStr "health")
    ∧ getKey recHealth "result" = some (Value.vStr "ok")
    ∧ getKey recHealth "business_context" = none :=
  ⟨rfl, rfl, rfl, rfl, rfl, rfl⟩

/-- A handler that writes under the wrapper-owned key `method`. -/
def handlerSpoof : Handler :=
  { calls := [[("method", Value.vStr "SPOOFED")]], result := HandlerResult.ret respOk }

/-- Claim C5 counterexample: a handler write under the key `method`
replaces the wrapper-set request method in the emitted record — accessor
writes can change the metadata fields, because `event.update` writes into
the same flat dict that holds them. -/
theorem C5_metadata_counterexample :
    reqHealth.method = "GET"
    ∧ getKey (dispatch envEmpty reqHealth handlerSpoof 0 1 "t").event "method"
        = some (Value.vStr "SPOOFED")
    ∧ Value.vStr "SPOOFED" ≠ Value.vStr "GET" :=
  ⟨rfl, rfl, by decide⟩

/-- Claim C5 (amended): nothing in the code protects the metadata and
identity keys from handler writes, but whenever the accessor call sequence
avoids the seven wrapper-owned key names, the emitted record keeps for
method, path, request_id, service, version, deployment_id and region
exactly the values the wrapper set at record creation. -/
theorem C5_metadata_frame (env : String → Option String) (req : Request)
    (calls : List (List (String × Value))) (res : HandlerResult)
    (tStart tEnd : ℚ) (nowIso : String) (hc : callsAvoidMeta calls) :
    getKey (dispatch env req { calls := calls, result := res } tStart tEnd nowIso).event
        "method" = some (Value.vStr req.method)
    ∧ getKey (dispatch env req { calls := calls, result := res } tStart tEnd nowIso).event
        "path" = some (Value.vStr req.path)
    ∧ getKey (dispatch env req { calls := calls, result := res } tStart tEnd nowIso).event
        "request_id" = some (optStr (headerGet req.headers "x-request-id"))
    ∧ getKey (dispatch env req { calls := calls, result := res } tStart tEnd nowIso).event
        "service" = some (optStr (env "SERVICE_NAME"))
    ∧ getKey (dispatch env req { calls := calls, result := res } tStart tEnd nowIso).event
        "version" = some (optStr (env "SERVICE_VERSION"))
    ∧ getKey (dispatch env req { calls := calls, result := res } tStart tEnd nowIso).event
        "deployment_id" = some (optStr (env "DEPLOYMENT_ID"))
    ∧ getKey (dispatch env req { calls := calls, result := res } tStart tEnd nowIso).event
        "region" = some (optStr (env "REGION")) := by
  refine ⟨?_, ?_, ?_, ?_, ?_, ?_, ?_⟩
  · rw [getKey_dispatch_event_preserved env req calls res tStart tEnd nowIso "method"
      (by decide) (by decide) (by decide) (by decide)
      (callsAvoidMeta_key calls hc "method" (by decide)), getKey_initialEvent_method]
  · rw [getKey_dispatch_event_preserved env req calls res tStart tEnd nowIso "path"
      (by decide) (by decide) (by decide) (by decide)
      (callsAvoidMeta_key calls hc "path" (by decide)), getKey_initialEvent_path]
  · rw [getKey_dispatch_event_preserved env req calls res tStart tEnd nowIso "request_id"
      (by decide) (by decide) (by decide) (by decide)
      (callsAvoidMeta_key calls hc "request_id" (by decide)),
      getKey_initialEvent_request_id]
  · rw [getKey_dispatch_event_preserved env req calls res tStart tEnd nowIso "service"
      (by decide) (by decide) (by decide) (by decide)
      (callsAvoidMeta_key calls hc "service" (by decide)), getKey_initialEvent_service]
  · rw [getKey_dispatch_event_preserved env req calls res tStart tEnd nowIso "version"
      (by decide) (by decide) (by decide) (by decide)
      (callsAvoidMeta_key calls hc "version" (by decide)), getKey_initialEvent_version]
  · rw [getKey_dispatch_event_preserved env req calls res tStart tEnd nowIso "deployment_id"
      (by decide) (by decide) (by decide) (by decide)
      (callsAvoidMeta_key calls hc "deployment_id" (by decide)),
      getKey_initialEvent_deployment_id]
  · rw [getKey_dispatch_event_preserved env req calls res tStart tEnd nowIso "region"
      (by decide) (by decide) (by decide) (by decide)
      (callsAvoidMeta_key calls hc "region" (by decide)), getKey_initialEvent_region]

/-- Claim C5 witness: the frame theorem applied at a concrete request with
a concrete handler write sequence avoiding the wrapper-owned keys. -/
theorem C5_metadata_frame_witness :
    callsAvoidMeta [[("endpoint", Value.vStr "health")]]
    ∧ getKey (dispatch envEmpty reqHealth
        { calls := [[("endpoint", Value.vStr "health")]], result := HandlerResult.ret respOk }
        0 1 "t").event "method" = some (Value.vStr "GET") :=
  ⟨by decide,
   (C5_metadata_frame envEmpty reqHealth [[("endpoint", Value.vStr "health")]]
      (HandlerResult.ret respOk) 0 1 "t" (by decide)).1⟩

/-- Claim C6 counterexample: the start timestamp comes from `time.time()`,
the wall clock; with wall-clock readings 10 at creation and 5 at
finalization — a clock stepped back mid-request — the emitted
`duration_ms` is -5000, which is negative, so duration is not the
monotonic elapsed time and is affected by clock adjustments. -/
theorem C6_wall_clock_counterexample :
    getKey (dispatch envEmpty reqHealth handlerNoop 10 5 "t").event "duration_ms"
      = some (Value.vNum (-5000))
    ∧ ¬ ((0 : ℚ) ≤ -5000) := by
  constructor
  · show getKey (dispatch envEmpty reqHealth
        { calls := [], result := HandlerResult.ret respOk } 10 5 "t").event "duration_ms"
      = some (Value.vNum (-5000))
    rw [dispatch_ret_event]
    unfold finalizeSuccess
    rw [getKey_setKey_self]
    have hq : ((5 : ℚ) - 10) * 1000 = -5000 := by norm_num
    rw [hq]
  · norm_num

/-- Claim C6 (amended): `duration_ms` equals the difference of the two
wall-clock readings times 1000, computed once in the finally block; it is
nonnegative whenever the wall clock did not step backwards between record
creation and finalization — the code offers no monotonic-clock guarantee
beyond that. -/
theorem C6_duration (env : String → Option String) (req : Request) (h : Handler)
    (tStart tEnd : ℚ) (nowIso : String) (hle : tStart ≤ tEnd) :
    getKey (dispatch env req h tStart tEnd nowIso).event "duration_ms"
      = some (Value.vNum ((tEnd - tStart) * 1000))
    ∧ (0 : ℚ) ≤ (tEnd - tStart) * 1000 := by
  constructor
  · cases h with
    | mk calls result =>
      cases result with
      | ret r =>
        rw [dispatch_ret_event]
        unfold finalizeSuccess
        rw [getKey_setKey_self]
      | exn err =>
        rw [dispatch_exn_event]
        unfold finalizeError
        rw [getKey_setKey_self]
  · exact mul_nonneg (sub_nonneg.mpr hle) (by norm_num)

/-- Claim C6 witness: the amended duration theorem applied at wall-clock
readings 0 and 1. -/
theorem C6_duration_witness :
    (0 : ℚ) ≤ 1
    ∧ (getKey (dispatch envEmpty reqHealth handlerNoop 0 1 "t").event "duration_ms"
        = some (Value.vNum ((1 - 0) * 1000))
      ∧ (0 : ℚ) ≤ (1 - 0) * 1000) :=
  ⟨by norm_num, C6_duration envEmpty reqHealth handlerNoop 0 1 "t" (by norm_num)⟩

/-- A process environment in which SERVICE_NAME is svc-a. -/
def envA : String → Option String :=
  fun k => if k = "SERVICE_NAME" then some "svc-a" else none

/-- A process environment in which SERVICE_NAME is svc-b. -/
def envB : String → Option String :=
  fun k => if k = "SERVICE_NAME" then some "svc-b" else none

/-- Claim C7 counterexample: `_get_env` runs `os.getenv` inside every
dispatch call, so two requests served while the mutable process
environment differs carry different `service` values — the identity fields
are not resolved once at process start and cached, and records within one
process lifetime need not agree on them. -/
theorem C7_no_cache_counterexample :
    getKey (dispatch envA reqHealth handlerNoop 0 1 "t").event "service"
      = some (Value.vStr "svc-a")
    ∧ getKey (dispatch envB reqHealth handlerNoop 0 1 "t").event "service"
      = some (Value.vStr "svc-b")
    ∧ Value.vStr "svc-a" ≠ Value.vStr "svc-b" :=
  ⟨rfl, rfl, by decide⟩

/-- Claim C7 (amended): the four identity fields are re-read from the
process environment on every dispatch call; two emitted records agree on
service, version, deployment_id and region whenever the four variables
hold equal values at the two dispatch times and neither handler writes
identity keys. -/
theorem C7_identity_stable (env1 env2 : String → Option String)
    (req1 req2 : Request) (calls1 calls2 : List (List (String × Value)))
    (res1 res2 : HandlerResult) (tS1 tE1 tS2 tE2 : ℚ) (iso1 iso2 : String)
    (hS : env1 "SERVICE_NAME" = env2 "SERVICE_NAME")
    (hV : env1 "SERVICE_VERSION" = env2 "SERVICE_VERSION")
    (hD : env1 "DEPLOYMENT_ID" = env2 "DEPLOYMENT_ID")
    (hR : env1 "REGION" = env2 "REGION")
    (hc1 : callsAvoidMeta calls1) (hc2 : callsAvoidMeta calls2) :
    getKey (dispatch env1 req1 { calls := calls1, result := res1 } tS1 tE1 iso1).event
        "service"
      = getKey (dispatch env2 req2 { calls := calls2, result := res2 } tS2 tE2 iso2).event
        "service"
    ∧ getKey (dispatch env1 req1 { calls := calls1, result := res1 } tS1 tE1 iso1).event
        "version"
      = getKey (dispatch env2 req2 { calls := calls2, result := res2 } tS2 tE2 iso2).event
        "version"
    ∧ getKey (dispatch env1 req1 { calls := calls1, result := res1 } tS1 tE1 iso1).event
        "deployment_id"
      = getKey (dispatch env2 req2 { calls := calls2, result := res2 } tS2 tE2 iso2).event
        "deployment_id"
    ∧ getKey (dispatch env1 req1 { calls := calls1, result := res1 } tS1 tE1 iso1).event
        "region"
      = getKey (dispatch env2 req2 { calls := calls2, result := res2 } tS2 tE2 iso2).event
        "region" := by
  refine ⟨?_, ?_, ?_, ?_⟩
  · rw [getKey_dispatch_event_preserved env1 req1 calls1 res1 tS1 tE1 iso1 "service"
      (by decide) (by decide) (by decide) (by decide)
      (callsAvoidMeta_key calls1 hc1 "service" (by decide)),
      getKey_dispatch_event_preserved env2 req2 calls2 res2 tS2 tE2 iso2 "service"
      (by decide) (by decide) (by decide) (by decide)
      (callsAvoidMeta_key calls2 hc2 "service" (by decide)),
      getKey_initialEvent_service, getKey_initialEvent_service, hS]
  · rw [getKey_dispatch_event_preserved env1 req1 calls1 res1 tS1 tE1 iso1 "version"
      (by decide) (by decide) (by decide) (by decide)
      (callsAvoidMeta_key calls1 hc1 "version" (by decide)),
      getKey_dispatch_event_preserved env2 req2 calls2 res2 tS2 tE2 iso2 "version"
      (by decide) (by decide) (by decide) (by decide)
      (callsAvoidMeta_key calls2 hc2 "version" (by decide)),
      getKey_initialEvent_version, getKey_initialEvent_version, hV]
  · rw [getKey_dispatch_event_preserved env1 req1 calls1 res1 tS1 tE1 iso1 "deployment_id"
      (by decide) (by decide) (by decide) (by decide)
      (callsAvoidMeta_key calls1 hc1 "deployment_id" (by decide)),
      getKey_dispatch_event_preserved env2 req2 calls2 res2 tS2 tE2 iso2 "deployment_id"
      (by decide) (by decide) (by decide) (by decide)
      (callsAvoidMeta_key calls2 hc2 "deployment_id" (by decide)),
      getKey_initialEvent_deployment_id, getKey_initialEvent_deployment_id, hD]
  · rw [getKey_dispatch_event_preserved env1 req1 calls1 res1 tS1 tE1 iso1 "region"
      (by decide) (by decide) (by decide) (by decide)
      (callsAvoidMeta_key calls1 hc1 "region" (by decide)),
      getKey_dispatch_event_preserved env2 req2 calls2 res2 tS2 tE2 iso2 "region"
      (by decide) (by decide) (by decide) (by decide)
      (callsAvoidMeta_key calls2 hc2 "region" (by decide)),
      getKey_initialEvent_region, getKey_initialEvent_region, hR]

/-- Claim C7 witness: the amended stability theorem applied to two
dispatch calls under the same environment. -/
theorem C7_identity_stable_witness :
    envA "SERVICE_NAME" = envA "SERVICE_NAME"
    ∧ getKey (dispatch envA reqHealth
        { calls := [], result := HandlerResult.ret respOk } 0 1 "t").event "service"
      = getKey (dispatch envA reqHealth
        { calls := [], result := HandlerResult.ret respOk } 2 3 "u").event "service" :=
  ⟨rfl,
   (C7_identity_stable envA envA reqHealth reqHealth [] []
      (HandlerResult.ret respOk) (HandlerResult.ret respOk) 0 1 2 3 "t" "u"
      rfl rfl rfl rfl (by decide) (by decide)).1⟩

/-- The finished dispatch result of the health scenario, from which the
handler-kept accessor can still be called. -/
def dispHealth : DispatchResult := dispatch envEmpty reqHealth handlerHealth 0 1 "t"

/-- Claim C8 counterexample: an addFields call made through the bound
accessor after finalization is not dropped — the lambda body runs
`event.update(data)` with no finalization guard — so the contribution
appears in the record object, even though emission already happened. -/
theorem C8_no_guard_counterexample :
    getKey dispHealth.event "late" = none
    ∧ getKey (postFinalizeCall dispHealth [("late", Value.vStr "x")]).event "late"
        = some (Value.vStr "x") :=
  ⟨rfl, rfl⟩

/-- Claim C8 (amended): an accessor call after finalization raises no error
and leaves the emitted record unchanged — the log entry reflects only
writes made between creation and finalization — but the call is not
dropped: with no finalization guard in the code, it still updates the
already-emitted record object. -/
theorem C8_post_finalization (env : String → Option String) (req : Request)
    (h : Handler) (tStart tEnd : ℚ) (nowIso : String)
    (data : List (String × Value)) :
    (postFinalizeCall (dispatch env req h tStart tEnd nowIso) data).emitted
      = (dispatch env req h tStart tEnd nowIso).emitted
    ∧ (postFinalizeCall (dispatch env req h tStart tEnd nowIso) data).event
      = addEventDataBatch (dispatch env req h tStart tEnd nowIso).event data := by
  cases h with
  | mk calls result => cases result <;> exact ⟨rfl, rfl⟩

/-- Claim C9 counterexample: the request-scoped state exposes only the
batch operation — the `add_event_data` assignment is commented out in the
source — so the per-request handle does not expose both mutation
operations. -/
theorem C9_single_op_counterexample :
    (dispatch envEmpty reqHealth handlerNoop 0 1 "t").state.add_event_data = none
    ∧ ((dispatch envEmpty reqHealth handlerNoop 0 1 "t").state.add_event_data_batch).isSome
        = true :=
  ⟨rfl, rfl⟩

/-- Claim C9 (amended): on every request the handle stored in
request-scoped state exposes exactly one mutation operation, the batch
merge bound to `add_event_data_batch`, callable any number of times; the
single-key helper `_add_event_data` exists in the source and equals a
singleton batch merge, but is not bound into request state. -/
theorem C9_accessor_ops (env : String → Option String) (req : Request)
    (h : Handler) (tStart tEnd : ℚ) (nowIso : String) :
    ((dispatch env req h tStart tEnd nowIso).state.add_event_data = none
      ∧ (dispatch env req h tStart tEnd nowIso).state.add_event_data_batch
          = some fun data e => addEventDataBatch e data)
    ∧ ∀ (e : EventDict) (k : String) (v : Value),
        addEventData e k v = addEventDataBatch e [(k, v)] := by
  cases h with
  | mk calls result => cases result <;> exact ⟨⟨rfl, rfl⟩, fun _ _ _ => rfl⟩

/-- Claim C10: the wrapper writes status_code and outcome only after the
downstream call has returned (and, on the exception path, the error block
after it has raised), then duration_ms in the finally block, so in the
emitted record these keys always hold the finalization values of the
wrapper, whatever the handler wrote under the same keys during the
request. -/
theorem C10_finalization_overwrites (env : String → Option String) (req : Request)
    (calls : List (List (String × Value))) (tStart tEnd : ℚ) (nowIso : String) :
    (∀ r : Response,
      getKey (dispatch env req { calls := calls, result := HandlerResult.ret r }
          tStart tEnd nowIso).event "status_code" = some (Value.vInt r.status_code)
      ∧ getKey (dispatch env req { calls := calls, result := HandlerResult.ret r }
          tStart tEnd nowIso).event "outcome" = some (Value.vStr "success")
      ∧ getKey (dispatch env req { calls := calls, result := HandlerResult.ret r }
          tStart tEnd nowIso).event "duration_ms"
          = some (Value.vNum ((tEnd - tStart) * 1000)))
    ∧ (∀ err : PyError,
      getKey (dispatch env req { calls := calls, result := HandlerResult.exn err }
          tStart tEnd nowIso).event "status_code" = some (Value.vInt 500)
      ∧ getKey (dispatch env req { calls := calls, result := HandlerResult.exn err }
          tStart tEnd nowIso).event "outcome" = some (Value.vStr "error")
      ∧ getKey (dispatch env req { calls := calls, result := HandlerResult.exn err }
          tStart tEnd nowIso).event "error"
          = some (Value.vErrObj err.className err.message err.code (err.retriable.getD false))
      ∧ getKey (dispatch env req { calls := calls, result := HandlerResult.exn err }
          tStart tEnd nowIso).event "duration_ms"
          = some (Value.vNum ((tEnd - tStart) * 1000))) := by
  constructor
  · intro r
    refine ⟨?_, ?_, ?_⟩
    · rw [dispatch_ret_event]
      unfold finalizeSuccess
      rw [getKey_setKey_ne _ _ (by decide : ("duration_ms" : String) ≠ "status_code"),
        getKey_setKey_ne _ _ (by decide : ("outcome" : String) ≠ "status_code"),
        getKey_setKey_self]
    · rw [dispatch_ret_event]
      unfold finalizeSuccess
      rw [getKey_setKey_ne _ _ (by decide : ("duration_ms" : String) ≠ "outcome"),
        getKey_setKey_self]
    · rw [dispatch_ret_event]
      unfold finalizeSuccess
      rw [getKey_setKey_self]
  · intro err
    refine ⟨?_, ?_, ?_, ?_⟩
    · rw [dispatch_exn_event]
      unfold finalizeError
      rw [getKey_setKey_ne _ _ (by decide : ("duration_ms" : String) ≠ "status_code"),
        getKey_setKey_ne _ _ (by decide : ("error" : String) ≠ "status_code"),
        getKey_setKey_ne _ _ (by decide : ("outcome" : String) ≠ "status_code"),
        getKey_setKey_self]
    · rw [dispatch_exn_event]
      unfold finalizeError
      rw [getKey_setKey_ne _ _ (by decide : ("duration_ms" : String) ≠ "outcome"),
        getKey_setKey_ne _ _ (by decide : ("error" : String) ≠ "outcome"),
        getKey_setKey_self]
    · rw [dispatch_exn_event]
      unfold finalizeError
      rw [getKey_setKey_ne _ _ (by decide : ("duration_ms" : String) ≠ "error"),
        getKey_setKey_self]
    · rw [dispatch_exn_event]
      unfold finalizeError
      rw [getKey_setKey_self]

end WideEvent
